/-
Verification of the segmentation / automation core of the
2026-Lead-Gen-Insurance backend against its specification.

The definitions below are a shallow embedding of
`app/services/segmentation_service.py` and
`app/services/automation_service.py` together with the data model of
`app/models/segmentation.py`, `app/models/automation.py` and
`app/models/lead.py`.  Machine conventions:

* SQL rows become Lean structures; the persistent store is a structure of
  lists (`DB`, `TaskDB`).
* Python `float` values are modelled as `Rat` (the rule evaluator only
  parses plain decimal literals and compares them).
* SQL `DateTime` values are modelled as `Int` seconds on a simplified
  day-aligned calendar (strictly monotone and injective on valid ISO
  dates, so order comparisons and date truncation behave as in SQL).
* Nullable columns become `Option`; SQL three-valued logic is collapsed at
  each leaf condition: a comparison against NULL yields `false` (the row
  is not selected), including under the negated operators, which matches
  the truth of the generated SQL because the service only combines leaf
  conditions with AND/OR.
* Fallible Python code (raising / caught exceptions) returns `Option` or
  `Except`.
-/
import Mathlib

namespace LeadGen

/-! ## Small Python-semantics helpers -/

/-- Digits of a decimal literal to a natural number. -/
def digitsToNat (cs : List Char) : Nat :=
  cs.foldl (fun a c => a * 10 + (c.toNat - 48)) 0

/-- Strip surrounding whitespace (Python `str.strip()` / `str.trim`).
Defined on character lists so that all evaluation is structural. -/
def stripWs (cs : List Char) : List Char :=
  ((cs.dropWhile Char.isWhitespace).reverse.dropWhile Char.isWhitespace).reverse

def pyStrip (s : String) : String := String.mk (stripWs s.data)

/-- Split on a single separator character, Python `str.split(sep)` /
`String.splitOn` for one-character separators. -/
def splitOnCharAux (sep : Char) : List Char → List Char → List (List Char)
  | [], acc => [acc.reverse]
  | c :: rest, acc =>
    if c == sep then acc.reverse :: splitOnCharAux sep rest []
    else splitOnCharAux sep rest (c :: acc)

def splitChar (s : String) (sep : Char) : List String :=
  (splitOnCharAux sep s.data []).map String.mk

/-- Unsigned part of a Python numeric literal parse. -/
def pyIntMag (cs : List Char) : Option Int :=
  if cs.length > 0 && cs.all Char.isDigit then some ((digitsToNat cs : Nat) : Int)
  else none

/-- Models Python `int(s)` on plain decimal literals: surrounding
whitespace is stripped, an optional sign is allowed; anything else raises
`ValueError`, modelled as `none`. -/
def pyInt (s : String) : Option Int :=
  match stripWs s.data with
  | '-' :: rest => (pyIntMag rest).map (fun n => -n)
  | '+' :: rest => pyIntMag rest
  | cs => pyIntMag cs

/-- Unsigned part of a Python `float` literal parse. -/
def pyFloatMag (cs : List Char) : Option Rat :=
  match splitOnCharAux '.' cs [] with
  | [ip] =>
    if ip.length > 0 && ip.all Char.isDigit then
      some (((digitsToNat ip : Nat) : Int) : Rat)
    else none
  | [ip, fp] =>
    if (ip.length > 0 || fp.length > 0) && ip.all Char.isDigit
        && fp.all Char.isDigit then
      some ((((digitsToNat ip * 10 ^ fp.length + digitsToNat fp : Nat) : Int) : Rat)
            / ((10 ^ fp.length : Nat) : Rat))
    else none
  | _ => none

/-- Models Python `float(s)` on plain decimal literals
(`[ws][sign]digits[.digits][ws]`); anything else raises `ValueError`,
modelled as `none`.  The value is represented exactly as a rational. -/
def pyFloat (s : String) : Option Rat :=
  match stripWs s.data with
  | '-' :: rest => (pyFloatMag rest).map (fun q => -q)
  | '+' :: rest => pyFloatMag rest
  | cs => pyFloatMag cs

/-- Models `datetime.fromisoformat` on `YYYY-MM-DD` or
`YYYY-MM-DDTHH:MM:SS`, mapping the components to seconds on a simplified
day-aligned calendar (`day = y*372 + (m-1)*31 + (d-1)`); the encoding is
strictly monotone and injective on valid dates, so `<`, `>` and
date-truncated equality agree with the real calendar. -/
def isoDateTime (s : String) : Option Int :=
  let (datePart, timePart) :=
    match splitOnCharAux 'T' s.data [] with
    | [d] => (d, "00:00:00".data)
    | [d, t] => (d, t)
    | _ => ([], [])
  match splitOnCharAux '-' datePart [], splitOnCharAux ':' timePart [] with
  | [y, m, d], [hh, mm, ss] =>
    if y.length = 4 && m.length = 2 && d.length = 2
        && hh.length = 2 && mm.length = 2 && ss.length = 2
        && (y ++ m ++ d ++ hh ++ mm ++ ss).all Char.isDigit then
      let yN := digitsToNat y
      let mN := digitsToNat m
      let dN := digitsToNat d
      let hhN := digitsToNat hh
      let mmN := digitsToNat mm
      let ssN := digitsToNat ss
      if 1 ≤ mN && mN ≤ 12 && 1 ≤ dN && dN ≤ 31
          && hhN ≤ 23 && mmN ≤ 59 && ssN ≤ 59 then
        some (((yN * 372 + (mN - 1) * 31 + (dN - 1)) * 86400
               + hhN * 3600 + mmN * 60 + ssN : Nat) : Int)
      else none
    else none
  | _, _ => none

/-- SQL `date()` truncation of a timestamp in the model above. -/
def sqlDate (t : Int) : Int := Int.fdiv t 86400

/-- `listStarts n h` holds when `n` is an initial run of `h`. -/
def listStarts : List Char → List Char → Bool
  | [], _ => true
  | _ :: _, [] => false
  | a :: as, b :: bs => a == b && listStarts as bs

/-- `listInfix n h` holds when `n` occurs contiguously inside `h`. -/
def listInfix (needle : List Char) : List Char → Bool
  | [] => needle.isEmpty
  | b :: rest => listStarts needle (b :: rest) || listInfix needle rest

/-- SQL `LIKE '%v%'` / SQLAlchemy `.contains` on strings. -/
def strContains (s v : String) : Bool := listInfix v.data s.data

/-- SQL `LIKE 'v%'` / SQLAlchemy `.startswith`. -/
def strStarts (s v : String) : Bool := listStarts v.data s.data

/-- SQL `LIKE '%v'` / SQLAlchemy `.endswith`. -/
def strEnds (s v : String) : Bool := listStarts v.data.reverse s.data.reverse

/-- Python `sep.join(parts)`. -/
def pyJoin (sep : String) (parts : List String) : String :=
  String.mk (List.intercalate sep.data (parts.map (·.data)))

/-- Lift a string predicate to a nullable column; a NULL column never
satisfies a leaf comparison (SQL three-valued logic collapsed at the
leaf). -/
def optStr (f : String → Bool) : Option String → Bool
  | some s => f s
  | none => false

/-! ## Data model (`app/models`)

`Lead` carries exactly the columns the segmentation and automation
services reference (the services also query `Lead.organization_id`, which
the spec's data model declares on every lead). -/

/-- JSON values stored in the weakly-typed configuration maps. -/
inductive JsonVal
  | str (s : String)
  | num (n : Int)
  | boolean (b : Bool)
  | nul
deriving DecidableEq

/-- Python truthiness of a JSON value. -/
def JsonVal.truthy : JsonVal → Bool
  | .str s => !s.data.isEmpty
  | .num n => decide (n ≠ 0)
  | .boolean b => b
  | .nul => false

/-- Coercion used where the Python code assigns a JSON config value into a
string column. -/
def JsonVal.asStr : JsonVal → String
  | .str s => s
  | .num n => toString n
  | .boolean b => toString b
  | .nul => "None"

/-- A JSON-object configuration / trigger-data map. -/
def Config := List (String × JsonVal)

instance : DecidableEq Config := by
  unfold Config
  infer_instance

/-- Python `dict.get(k)`. -/
def Config.get? (c : Config) (k : String) : Option JsonVal :=
  (c.find? (fun p => p.1 == k)).map (·.2)

/-- Python `dict.get(k, dflt)`. -/
def Config.getD (c : Config) (k : String) (dflt : JsonVal) : JsonVal :=
  ((c.get? k).getD dflt)

structure Lead where
  id : Nat
  organization_id : Nat
  email : String
  status : String
  priority : String
  source_id : Option Int
  assignee_id : Option JsonVal
  insurance_type : Option String
  state : Option String
  city : Option String
  value_estimate : Rat
  created_at : Int
  updated_at : Int
  tags : Option String
deriving DecidableEq

structure SegmentRule where
  field : String
  operator : String
  value : String
  is_active : Bool
  rule_order : Int
deriving DecidableEq

structure Segment where
  id : Nat
  is_active : Bool
  is_dynamic : Bool
  match_all_rules : Bool
  organization_id : Nat
  rules : List SegmentRule
deriving DecidableEq

structure LeadSegmentRow where
  lead_id : Nat
  segment_id : Nat
  is_active : Bool
deriving DecidableEq

structure EmailTemplate where
  id : Int
  name : String
  is_active : Bool
deriving DecidableEq

/-- The persistent store the two services read and write. -/
structure DB where
  segments : List Segment
  leads : List Lead
  lead_segments : List LeadSegmentRow
  email_templates : List EmailTemplate
deriving DecidableEq

/-! ## `SegmentationService._build_*_condition`

Each builder returns `some` predicate over a lead, or `none` when the
Python code would return `None` (unsupported operator) or raise an
exception that `_build_rule_condition` catches (unparseable value). -/

def build_status_condition (op value : String) : Option (Lead → Bool) :=
  if op == "equals" then some (fun l => l.status == value)
  else if op == "not_equals" then some (fun l => l.status != value)
  else if op == "in" then some (fun l => (splitChar value ',').contains l.status)
  else if op == "not_in" then some (fun l => !(splitChar value ',').contains l.status)
  else none

def build_priority_condition (op value : String) : Option (Lead → Bool) :=
  if op == "equals" then some (fun l => l.priority == value)
  else if op == "not_equals" then some (fun l => l.priority != value)
  else if op == "in" then some (fun l => (splitChar value ',').contains l.priority)
  else if op == "not_in" then some (fun l => !(splitChar value ',').contains l.priority)
  else none

def build_source_condition (op value : String) : Option (Lead → Bool) :=
  if op == "equals" then
    (pyInt value).map (fun v => fun l => l.source_id == some v)
  else if op == "not_equals" then
    (pyInt value).map (fun v => fun l =>
      match l.source_id with | some x => x != v | none => false)
  else if op == "in" then
    ((splitChar value ',').mapM (fun v => pyInt (pyStrip v))).map (fun vs => fun l =>
      match l.source_id with | some x => vs.contains x | none => false)
  else if op == "not_in" then
    ((splitChar value ',').mapM (fun v => pyInt (pyStrip v))).map (fun vs => fun l =>
      match l.source_id with | some x => !vs.contains x | none => false)
  else none

/-- Shared shape of the `insurance_type` / `state` / `city` builders
(string columns with the full string operator set). -/
def buildStringColCondition (col : Lead → Option String) (op value : String) :
    Option (Lead → Bool) :=
  if op == "equals" then some (fun l => optStr (· == value) (col l))
  else if op == "not_equals" then some (fun l => optStr (· != value) (col l))
  else if op == "contains" then some (fun l => optStr (fun s => strContains s value) (col l))
  else if op == "starts_with" then some (fun l => optStr (fun s => strStarts s value) (col l))
  else if op == "ends_with" then some (fun l => optStr (fun s => strEnds s value) (col l))
  else if op == "in" then
    some (fun l => optStr (fun s => (splitChar value ',').contains s) (col l))
  else if op == "not_in" then
    some (fun l => optStr (fun s => !(splitChar value ',').contains s) (col l))
  else none

def build_insurance_type_condition (op value : String) : Option (Lead → Bool) :=
  buildStringColCondition (·.insurance_type) op value

def build_state_condition (op value : String) : Option (Lead → Bool) :=
  buildStringColCondition (·.state) op value

def build_city_condition (op value : String) : Option (Lead → Bool) :=
  buildStringColCondition (·.city) op value

def build_value_estimate_condition (op value : String) : Option (Lead → Bool) :=
  match pyFloat value with
  | none => none
  | some fv =>
    if op == "equals" then some (fun l => decide (l.value_estimate = fv))
    else if op == "not_equals" then some (fun l => decide (l.value_estimate ≠ fv))
    else if op == "greater_than" then some (fun l => decide (fv < l.value_estimate))
    else if op == "less_than" then some (fun l => decide (l.value_estimate < fv))
    else none

/-- Shared shape of the `created_at` / `updated_at` builders. -/
def buildDateColCondition (col : Lead → Int) (op value : String) :
    Option (Lead → Bool) :=
  match isoDateTime value with
  | none => none
  | some dv =>
    if op == "greater_than" then some (fun l => decide (dv < col l))
    else if op == "less_than" then some (fun l => decide (col l < dv))
    else if op == "equals" then some (fun l => decide (sqlDate (col l) = sqlDate dv))
    else none

def build_created_at_condition (op value : String) : Option (Lead → Bool) :=
  buildDateColCondition (·.created_at) op value

def build_updated_at_condition (op value : String) : Option (Lead → Bool) :=
  buildDateColCondition (·.updated_at) op value

def build_tags_condition (op value : String) : Option (Lead → Bool) :=
  if op == "contains" then some (fun l => optStr (fun s => strContains s value) l.tags)
  else if op == "not_contains" then
    some (fun l => optStr (fun s => !strContains s value) l.tags)
  else if op == "equals" then some (fun l => l.tags == some value)
  else if op == "not_equals" then some (fun l => optStr (· != value) l.tags)
  else none

/-- `SegmentationService._build_rule_condition`: dispatch on the rule's
field; unknown fields and exceptions both produce `None`. -/
def build_rule_condition (rule : SegmentRule) : Option (Lead → Bool) :=
  if rule.field == "status" then build_status_condition rule.operator rule.value
  else if rule.field == "priority" then build_priority_condition rule.operator rule.value
  else if rule.field == "source" then build_source_condition rule.operator rule.value
  else if rule.field == "insurance_type" then build_insurance_type_condition rule.operator rule.value
  else if rule.field == "state" then build_state_condition rule.operator rule.value
  else if rule.field == "city" then build_city_condition rule.operator rule.value
  else if rule.field == "value_estimate" then build_value_estimate_condition rule.operator rule.value
  else if rule.field == "created_at" then build_created_at_condition rule.operator rule.value
  else if rule.field == "updated_at" then build_updated_at_condition rule.operator rule.value
  else if rule.field == "tags" then build_tags_condition rule.operator rule.value
  else none

/-! ## `SegmentationService.evaluate_segment` -/

/-- Python truthiness of the optional `lead_ids` argument: `None` and the
empty list are both falsy, so the `Lead.id.in_(lead_ids)` filter is only
added for a non-empty list. -/
def pyTruthyIds : Option (List Nat) → Bool
  | some ids => !ids.isEmpty
  | none => false

/-- The active rules of a segment (inactive rules are skipped by the
`continue` in the evaluation loop). -/
def activeRules (segment : Segment) : List SegmentRule :=
  segment.rules.filter (·.is_active)

/-- The rule conditions `evaluate_segment` collects: nothing when the
rule list is empty, otherwise the buildable conditions of the active
rules. -/
def segment_conditions (segment : Segment) : List (Lead → Bool) :=
  if segment.rules.isEmpty then []
  else (activeRules segment).filterMap build_rule_condition

/-- The WHERE clause of `evaluate_segment`'s query as a predicate over a
lead: the rule combination is only applied when at least one condition was
built; the query is always restricted to the segment's organization, and
to `lead_ids` when that argument is truthy. -/
def evalPred (segment : Segment) (lead_ids : Option (List Nat)) (l : Lead) :
    Bool :=
  let conditions := segment_conditions segment
  (if conditions.isEmpty then true
   else if segment.match_all_rules then conditions.all (fun c => c l)
   else conditions.any (fun c => c l))
  && (if pyTruthyIds lead_ids then (lead_ids.getD []).contains l.id else true)
  && (l.organization_id == segment.organization_id)

/-- The ids of matching leads returned by `evaluate_segment`
(`matching_leads` in the returned payload). -/
def evaluate_segment (db : DB) (segment : Segment)
    (lead_ids : Option (List Nat)) : List Nat :=
  (db.leads.filter (evalPred segment lead_ids)).map (·.id)

/-! ## Membership primitives -/

def get_segment_by_id (db : DB) (segment_id : Nat) : Option Segment :=
  db.segments.find? (fun s => s.id == segment_id)

/-- `SegmentationService.add_leads_to_segment`: reactivates every existing
row of the segment whose lead is in `lead_ids`, creates an active row for
each id with no existing row, and returns the number of rows touched. -/
def add_leads_to_segment (db : DB) (segment_id : Nat) (lead_ids : List Nat) :
    DB × Nat :=
  match get_segment_by_id db segment_id with
  | none => (db, 0)
  | some _ =>
    let existing := db.lead_segments.filter
      (fun r => r.segment_id == segment_id && lead_ids.contains r.lead_id)
    let existing_lead_ids := existing.map (·.lead_id)
    let new_lead_ids := lead_ids.filter (fun lid => !existing_lead_ids.contains lid)
    let updated := db.lead_segments.map (fun r =>
      if r.segment_id == segment_id && lead_ids.contains r.lead_id then
        { r with is_active := true }
      else r)
    let new_rows := new_lead_ids.map (fun lid =>
      { lead_id := lid, segment_id := segment_id, is_active := true : LeadSegmentRow })
    ({ db with lead_segments := updated ++ new_rows },
     new_lead_ids.length + existing.length)

/-- `SegmentationService.remove_leads_from_segment`: soft-deactivates every
row of the segment whose lead is in `lead_ids` (no row is deleted, and no
segment-existence check is performed by the source). -/
def remove_leads_from_segment (db : DB) (segment_id : Nat) (lead_ids : List Nat) :
    DB × Nat :=
  let matched := db.lead_segments.filter
    (fun r => r.segment_id == segment_id && lead_ids.contains r.lead_id)
  let updated := db.lead_segments.map (fun r =>
    if r.segment_id == segment_id && lead_ids.contains r.lead_id then
      { r with is_active := false }
    else r)
  ({ db with lead_segments := updated }, matched.length)

/-- Lead ids of the active membership rows of a segment. -/
def activeLeadIds (db : DB) (segment_id : Nat) : List Nat :=
  (db.lead_segments.filter (fun r => r.segment_id == segment_id && r.is_active)).map
    (·.lead_id)

/-- `SegmentationService.update_segment_memberships`: recompute a dynamic
segment's membership from its rules and apply the add/remove diff against
the currently active rows; static or missing segments are a no-op
returning `0`. -/
def update_segment_memberships (db : DB) (segment_id : Nat) : DB × Nat :=
  match get_segment_by_id db segment_id with
  | none => (db, 0)
  | some segment =>
    if !segment.is_dynamic then (db, 0)
    else
      let matching_lead_ids := evaluate_segment db segment none
      let current_members := db.lead_segments.filter
        (fun r => r.segment_id == segment_id && r.is_active)
      let current_lead_ids := (current_members.map (·.lead_id)).dedup
      let leads_to_add :=
        matching_lead_ids.filter (fun lid => !current_lead_ids.contains lid)
      let leads_to_remove :=
        current_lead_ids.filter (fun lid => !matching_lead_ids.contains lid)
      let db1 := if leads_to_add.isEmpty then db
        else (add_leads_to_segment db segment_id leads_to_add).1
      let db2 := if leads_to_remove.isEmpty then db1
        else (remove_leads_from_segment db1 segment_id leads_to_remove).1
      (db2, leads_to_add.length + leads_to_remove.length)

/-! ## Scheduled task queue (`AutomationService.process_due_tasks`) -/

structure ScheduledTask where
  id : Nat
  task_type : String
  scheduled_for : Int
  status : String
  priority : Int
  retry_count : Nat
  max_retries : Nat
  organization_id : Nat
deriving DecidableEq

structure TaskDB where
  tasks : List ScheduledTask
deriving DecidableEq

/-- The body of the processing loop is a TODO stub in the source
(`# TODO: Implement actual task processing logic`); its outcome is
abstracted as a handler whose `Except.error` models an exception raised
while executing the task, which the loop's `except` clause catches. -/
def TaskHandler := ScheduledTask → Except String Unit

def handlerOk (handler : TaskHandler) (t : ScheduledTask) : Bool :=
  match handler t with
  | .ok _ => true
  | .error _ => false

/-- One ordered insertion for `ORDER BY priority DESC` (the source query
has no secondary sort key; the stored order breaks ties, as a stable
sort). -/
def insertByPriorityDesc (t : ScheduledTask) :
    List ScheduledTask → List ScheduledTask
  | [] => [t]
  | h :: rest =>
    if t.priority ≤ h.priority then h :: insertByPriorityDesc t rest
    else t :: h :: rest

def sortByPriorityDesc (l : List ScheduledTask) : List ScheduledTask :=
  l.foldr insertByPriorityDesc []

/-- The due-task query of `process_due_tasks`:
`scheduled_for <= now AND status = 'pending'`, `ORDER BY priority DESC`,
`LIMIT 100` (the limit is the hard-coded literal in the source; the
function takes no limit argument). -/
def due_tasks (db : TaskDB) (now : Int) : List ScheduledTask :=
  (sortByPriorityDesc (db.tasks.filter
    (fun t => decide (t.scheduled_for ≤ now) && t.status == "pending"))).take 100

/-- The per-task body of the processing loop: handler success completes the
task (and resets `retry_count` to 0); on an exception `retry_count` is
incremented first and then compared with `max_retries`, failing the task
or scheduling a retry 5 minutes (300 s) after `now`. -/
def process_one_task (now : Int) (handler : TaskHandler)
    (t : ScheduledTask) : ScheduledTask :=
  match handler t with
  | .ok _ => { t with status := "completed", retry_count := 0 }
  | .error _ =>
    let rc := t.retry_count + 1
    if t.max_retries ≤ rc then { t with retry_count := rc, status := "failed" }
    else { t with retry_count := rc, scheduled_for := now + 300,
                  status := "retry_scheduled" }

/-- `AutomationService.process_due_tasks`: select the due batch, process
each task and write it back; `processed_count` only counts handler
successes (the increment sits in the `try` body before any exception
point of the stub, and the `except` clause does not count). -/
def process_due_tasks (db : TaskDB) (now : Int) (handler : TaskHandler) :
    TaskDB × Nat :=
  let due := due_tasks db now
  let processed := due.map (process_one_task now handler)
  let newTasks := db.tasks.map (fun t =>
    ((processed.find? (fun p => p.id == t.id)).getD t))
  ({ tasks := newTasks }, (due.filter (handlerOk handler)).length)

/-! ## Automation pipeline (`AutomationService.trigger_automation`) -/

structure AutomationAction where
  id : Nat
  action_type : String
  action_order : Int
  is_active : Bool
  configuration : Config
deriving DecidableEq

/-- `Automation.actions` is listed in `action_order`, as delivered by the
ORM relationship's `order_by`. -/
structure Automation where
  id : Nat
  is_active : Bool
  organization_id : Nat
  actions : List AutomationAction
deriving DecidableEq

/-- The outcome dictionary returned by every `_execute_*_action` handler:
its `success` flag, its `error` key when present, and the remaining
informational keys. -/
structure ActionOutcome where
  success : Bool
  error : Option String
  detail : Config
deriving DecidableEq

def TriggerData := Config

instance : DecidableEq TriggerData := by
  unfold TriggerData
  infer_instance

/-- Python truthiness of the optional `lead_id` (`None` and `0` are
falsy). -/
def pyTruthyId : Option Nat → Bool
  | some n => decide (n ≠ 0)
  | none => false

def get_email_template_by_id (db : DB) (template_id : Int) :
    Option EmailTemplate :=
  db.email_templates.find? (fun t => t.id == template_id)

def find_lead (db : DB) (lead_id : Nat) : Option Lead :=
  db.leads.find? (fun l => l.id == lead_id)

def jsonOfOptNat : Option Nat → JsonVal
  | some n => .num n
  | none => .nul

/-- `_execute_send_email_action` (the transport itself is a TODO in the
source; a non-numeric `template_id` cannot match any row and is reported
as template-not-found). -/
def execute_send_email_action (db : DB) (lead_id : Option Nat)
    (config : Config) (_trigger_data : TriggerData) : ActionOutcome × DB :=
  let template_id := config.get? "template_id"
  if !(template_id.map JsonVal.truthy).getD false then
    ({ success := false, error := some "No email template specified", detail := [] }, db)
  else
    let template := match template_id with
      | some (.num n) => get_email_template_by_id db n
      | _ => none
    match template with
    | none => ({ success := false, error := some "Email template not found", detail := [] }, db)
    | some tmplt =>
      let lead := match lead_id with
        | some lid => if pyTruthyId (some lid) then find_lead db lid else none
        | none => none
      ({ success := true, error := none,
         detail := [("action", .str "send_email"),
                    ("template_id", (template_id.getD .nul)),
                    ("template_name", .str tmplt.name),
                    ("lead_id", jsonOfOptNat lead_id),
                    ("lead_email", match lead with
                      | some l => .str l.email
                      | none => .nul)] }, db)

/-- `_execute_update_lead_status_action`. -/
def execute_update_lead_status_action (db : DB) (lead_id : Option Nat)
    (config : Config) (trigger_data : TriggerData) : ActionOutcome × DB :=
  if !pyTruthyId lead_id then
    ({ success := false, error := some "No lead specified", detail := [] }, db)
  else
    let new_status := config.get? "status"
    if !(new_status.map JsonVal.truthy).getD false then
      ({ success := false, error := some "No status specified", detail := [] }, db)
    else
      let lid := lead_id.getD 0
      match find_lead db lid with
      | none => ({ success := false, error := some "Lead not found", detail := [] }, db)
      | some _ =>
        let s := (new_status.getD .nul).asStr
        ({ success := true, error := none,
           detail := [("action", .str "update_lead_status"),
                      ("lead_id", jsonOfOptNat lead_id),
                      ("old_status", trigger_data.getD "old_status" .nul),
                      ("new_status", new_status.getD .nul)] },
         { db with leads := db.leads.map (fun l =>
             if l.id == lid then { l with status := s } else l) })

/-- `_execute_update_lead_priority_action`. -/
def execute_update_lead_priority_action (db : DB) (lead_id : Option Nat)
    (config : Config) (trigger_data : TriggerData) : ActionOutcome × DB :=
  if !pyTruthyId lead_id then
    ({ success := false, error := some "No lead specified", detail := [] }, db)
  else
    let new_priority := config.get? "priority"
    if !(new_priority.map JsonVal.truthy).getD false then
      ({ success := false, error := some "No priority specified", detail := [] }, db)
    else
      let lid := lead_id.getD 0
      match find_lead db lid with
      | none => ({ success := false, error := some "Lead not found", detail := [] }, db)
      | some _ =>
        let s := (new_priority.getD .nul).asStr
        ({ success := true, error := none,
           detail := [("action", .str "update_lead_priority"),
                      ("lead_id", jsonOfOptNat lead_id),
                      ("old_priority", trigger_data.getD "old_priority" .nul),
                      ("new_priority", new_priority.getD .nul)] },
         { db with leads := db.leads.map (fun l =>
             if l.id == lid then { l with priority := s } else l) })

/-- `_execute_assign_lead_action` (the raw JSON `agent_id` is written into
`assignee_id`, as in the source). -/
def execute_assign_lead_action (db : DB) (lead_id : Option Nat)
    (config : Config) (trigger_data : TriggerData) : ActionOutcome × DB :=
  if !pyTruthyId lead_id then
    ({ success := false, error := some "No lead specified", detail := [] }, db)
  else
    let agent_id := config.get? "agent_id"
    if !(agent_id.map JsonVal.truthy).getD false then
      ({ success := false, error := some "No agent specified", detail := [] }, db)
    else
      let lid := lead_id.getD 0
      match find_lead db lid with
      | none => ({ success := false, error := some "Lead not found", detail := [] }, db)
      | some _ =>
        ({ success := true, error := none,
           detail := [("action", .str "assign_lead"),
                      ("lead_id", jsonOfOptNat lead_id),
                      ("agent_id", agent_id.getD .nul),
                      ("old_agent_id", trigger_data.getD "old_agent_id" .nul)] },
         { db with leads := db.leads.map (fun l =>
             if l.id == lid then { l with assignee_id := agent_id } else l) })

/-- The tag-list normalisation shared by the tag actions:
`[t.strip() for t in current_tags.split(",") if t.strip()]`. -/
def tagsList (current_tags : String) : List String :=
  ((splitChar current_tags ',').map pyStrip).filter (fun t => !t.data.isEmpty)

/-- `_execute_add_tag_action`: idempotent append guarded by membership in
the current tag list. -/
def execute_add_tag_action (db : DB) (lead_id : Option Nat)
    (config : Config) (_trigger_data : TriggerData) : ActionOutcome × DB :=
  if !pyTruthyId lead_id then
    ({ success := false, error := some "No lead specified", detail := [] }, db)
  else
    let tag := config.get? "tag"
    if !(tag.map JsonVal.truthy).getD false then
      ({ success := false, error := some "No tag specified", detail := [] }, db)
    else
      let lid := lead_id.getD 0
      match find_lead db lid with
      | none => ({ success := false, error := some "Lead not found", detail := [] }, db)
      | some lead =>
        let tagS := (tag.getD .nul).asStr
        let current := tagsList (lead.tags.getD "")
        let newTags :=
          if !current.contains tagS then
            some (pyJoin ", " (current ++ [tagS]))
          else none
        let finalTags := match newTags with
          | some s => some s
          | none => lead.tags
        ({ success := true, error := none,
           detail := [("action", .str "add_tag"),
                      ("lead_id", jsonOfOptNat lead_id),
                      ("tag", tag.getD .nul),
                      ("current_tags", match finalTags with
                        | some s => .str s
                        | none => .nul)] },
         { db with leads := db.leads.map (fun l =>
             if l.id == lid then { l with tags := finalTags } else l) })

/-- `_execute_remove_tag_action`: removes the first occurrence from the
tag list when present. -/
def execute_remove_tag_action (db : DB) (lead_id : Option Nat)
    (config : Config) (_trigger_data : TriggerData) : ActionOutcome × DB :=
  if !pyTruthyId lead_id then
    ({ success := false, error := some "No lead specified", detail := [] }, db)
  else
    let tag := config.get? "tag"
    if !(tag.map JsonVal.truthy).getD false then
      ({ success := false, error := some "No tag specified", detail := [] }, db)
    else
      let lid := lead_id.getD 0
      match find_lead db lid with
      | none => ({ success := false, error := some "Lead not found", detail := [] }, db)
      | some lead =>
        let tagS := (tag.getD .nul).asStr
        let current := tagsList (lead.tags.getD "")
        let newTags :=
          if current.contains tagS then
            some (pyJoin ", " (current.erase tagS))
          else none
        let finalTags := match newTags with
          | some s => some s
          | none => lead.tags
        ({ success := true, error := none,
           detail := [("action", .str "remove_tag"),
                      ("lead_id", jsonOfOptNat lead_id),
                      ("tag", tag.getD .nul),
                      ("current_tags", match finalTags with
                        | some s => .str s
                        | none => .nul)] },
         { db with leads := db.leads.map (fun l =>
             if l.id == lid then { l with tags := finalTags } else l) })

/-- `_execute_create_task_action` (creation itself is a TODO in the
source; the handler always reports success with its config defaults). -/
def execute_create_task_action (db : DB) (lead_id : Option Nat)
    (config : Config) (_trigger_data : TriggerData) : ActionOutcome × DB :=
  ({ success := true, error := none,
     detail := [("action", .str "create_task"),
                ("lead_id", jsonOfOptNat lead_id),
                ("task_type", config.getD "task_type" (.str "follow_up")),
                ("task_title", config.getD "title" (.str "Automated Task"))] }, db)

/-- `_execute_send_notification_action` (sending is a TODO in the
source). -/
def execute_send_notification_action (db : DB) (lead_id : Option Nat)
    (config : Config) (_trigger_data : TriggerData) : ActionOutcome × DB :=
  ({ success := true, error := none,
     detail := [("action", .str "send_notification"),
                ("lead_id", jsonOfOptNat lead_id),
                ("notification_type", config.getD "notification_type" (.str "email"))] }, db)

/-- `AutomationService._execute_automation_action`: closed dispatch on the
action type; an unrecognized type is a `success=False` outcome, never an
exception (and the surrounding `try/except` turns any handler exception
into a `success=False` outcome as well, so this function is total). -/
def execute_automation_action (db : DB) (action : AutomationAction)
    (lead_id : Option Nat) (trigger_data : TriggerData) : ActionOutcome × DB :=
  let config := action.configuration
  if action.action_type == "send_email" then
    execute_send_email_action db lead_id config trigger_data
  else if action.action_type == "update_lead_status" then
    execute_update_lead_status_action db lead_id config trigger_data
  else if action.action_type == "update_lead_priority" then
    execute_update_lead_priority_action db lead_id config trigger_data
  else if action.action_type == "assign_lead" then
    execute_assign_lead_action db lead_id config trigger_data
  else if action.action_type == "add_tag" then
    execute_add_tag_action db lead_id config trigger_data
  else if action.action_type == "remove_tag" then
    execute_remove_tag_action db lead_id config trigger_data
  else if action.action_type == "create_task" then
    execute_create_task_action db lead_id config trigger_data
  else if action.action_type == "send_notification" then
    execute_send_notification_action db lead_id config trigger_data
  else
    ({ success := false,
       error := some ("Unknown action type: " ++ action.action_type),
       detail := [] }, db)

/-- Python dict assignment `log[k] = v`: replaces the value of an existing
key in place (a dict holds each key at most once), otherwise appends the
pair at the end, preserving insertion order. -/
def dictInsert : List (String × ActionOutcome) → String → ActionOutcome →
    List (String × ActionOutcome)
  | [], k, v => [(k, v)]
  | (k', v') :: rest, k, v =>
    if k' == k then (k, v) :: rest
    else (k', v') :: dictInsert rest k v

/-- The execution log of a run: the dict built by the loop on normal
completion, or the `{error, executed_actions, execution_log}` dict the
`except` clause stores on failure. -/
inductive RunLog
  | completed (entries : List (String × ActionOutcome))
  | failed (error : String) (executed_actions : List String)
           (entries : List (String × ActionOutcome))
deriving DecidableEq

def RunLog.entries : RunLog → List (String × ActionOutcome)
  | .completed es => es
  | .failed _ _ es => es

structure AutomationRun where
  automation_id : Nat
  lead_id : Option Nat
  status : String
  execution_log : RunLog
  completed_at_set : Bool
deriving DecidableEq

/-- The `for action in automation.actions` loop: inactive actions are
skipped; each executed action appends its type to `triggered_actions` and
stores its outcome in the log under its type.  `fault_after = some k`
models an unexpected exception escaping the iteration once `k` active
actions have executed (nothing inside the loop of the source can raise —
the executor catches everything — but the surrounding `try` also covers
the commit after the loop, kept here as `k ≥` the active count). -/
def run_actions (lead_id : Option Nat) (trigger_data : TriggerData)
    (fault_after : Option Nat) :
    List AutomationAction → DB → List String →
    List (String × ActionOutcome) →
    List String × List (String × ActionOutcome) × DB
  | [], db, ts, log => (ts, log, db)
  | action :: rest, db, ts, log =>
    if action.is_active then
      if fault_after == some ts.length then (ts, log, db)
      else
        let r := execute_automation_action db action lead_id trigger_data
        run_actions lead_id trigger_data fault_after rest r.2
          (ts ++ [action.action_type]) (dictInsert log action.action_type r.1)
    else run_actions lead_id trigger_data fault_after rest db ts log

structure TriggerResult where
  success : Bool
  run : Option AutomationRun
  triggered_actions : List String
  db : DB
deriving DecidableEq

/-- `AutomationService.trigger_automation`: a missing or inactive
automation returns a not-triggered result with no run; otherwise a run is
created in `processing`, the action loop executes, and the run ends
`completed` — or `failed` with the exception captured in the log when an
unexpected exception (modelled by `fault`) escapes the iteration. -/
def trigger_automation (db : DB) (automation : Option Automation)
    (lead_id : Option Nat) (trigger_data : TriggerData)
    (fault : Option (Nat × String)) : TriggerResult :=
  match automation with
  | none => { success := false, run := none, triggered_actions := [], db := db }
  | some auto =>
    if !auto.is_active then
      { success := false, run := none, triggered_actions := [], db := db }
    else
      let r := run_actions lead_id trigger_data (fault.map (·.1))
        auto.actions db [] []
      match fault with
      | some (_, msg) =>
        { success := false,
          run := some { automation_id := auto.id, lead_id := lead_id,
                        status := "failed",
                        execution_log := .failed msg r.1 r.2.1,
                        completed_at_set := true },
          triggered_actions := r.1, db := r.2.2 }
      | none =>
        { success := true,
          run := some { automation_id := auto.id, lead_id := lead_id,
                        status := "completed",
                        execution_log := .completed r.2.1,
                        completed_at_set := true },
          triggered_actions := r.1, db := r.2.2 }

/-! ## Concurrent `process_due_tasks` calls (interleaving model)

Two concurrent invocations of `process_due_tasks` over one shared task
store.  Each processor runs the code's sequence of awaited database
operations atomically one at a time: first its `SELECT` (snapshotting the
due batch), then one task-process-plus-commit per step.  Any interleaving
of the two label streams is a possible execution. -/

inductive ProcPhase
  | idle
  | running (remaining : List ScheduledTask) (claims : Nat)
  | finished (claims : Nat)
deriving DecidableEq

structure SchedState where
  store : List ScheduledTask
  procA : ProcPhase
  procB : ProcPhase
deriving DecidableEq

inductive SchedLabel
  | selectA | stepA | selectB | stepB
deriving DecidableEq

/-- Write one processed task back to the store (the per-task
`await self.db.commit()`). -/
def commitTask (store : List ScheduledTask) (p : ScheduledTask) :
    List ScheduledTask :=
  store.map (fun t => if t.id == p.id then p else t)

/-- One processor step over its snapshot, mirroring the loop body of
`process_due_tasks`. -/
def procStep (now : Int) (handler : TaskHandler) (store : List ScheduledTask) :
    ProcPhase → Option (ProcPhase × List ScheduledTask)
  | .idle => none
  | .running [] c => some (.finished c, store)
  | .running (t :: rest) c =>
    let p := process_one_task now handler t
    some (.running rest (c + (if handlerOk handler t then 1 else 0)),
          commitTask store p)
  | .finished _ => none

def schedStep (now : Int) (handler : TaskHandler) (s : SchedState) :
    SchedLabel → Option SchedState
  | .selectA =>
    match s.procA with
    | .idle => some { s with procA := .running (due_tasks ⟨s.store⟩ now) 0 }
    | _ => none
  | .stepA =>
    (procStep now handler s.store s.procA).map
      (fun r => { s with procA := r.1, store := r.2 })
  | .selectB =>
    match s.procB with
    | .idle => some { s with procB := .running (due_tasks ⟨s.store⟩ now) 0 }
    | _ => none
  | .stepB =>
    (procStep now handler s.store s.procB).map
      (fun r => { s with procB := r.1, store := r.2 })

def schedRun (now : Int) (handler : TaskHandler) (s : SchedState) :
    List SchedLabel → Option SchedState
  | [] => some s
  | l :: rest => (schedStep now handler s l).bind (fun s1 => schedRun now handler s1 rest)

/-- Total successful claims of a final state. -/
def claimsOf : ProcPhase → Nat
  | .idle => 0
  | .running _ c => c
  | .finished c => c

/-! ## Shared concrete exemplars -/

/-- A lead of organization 1 with status `new`. -/
def sampleLead : Lead :=
  { id := 1, organization_id := 1, email := "ann@example.com", status := "new",
    priority := "medium", source_id := none, assignee_id := none,
    insurance_type := none, state := none, city := none,
    value_estimate := 0, created_at := 0, updated_at := 0, tags := none }

/-- An AND-mode dynamic segment with one active well-formed rule. -/
def segAnd : Segment :=
  { id := 1, is_active := true, is_dynamic := true, match_all_rules := true,
    organization_id := 1,
    rules := [{ field := "status", operator := "equals", value := "new",
                is_active := true, rule_order := 0 }] }

/-- An OR-mode dynamic segment with no rules at all. -/
def segEmptyOr : Segment :=
  { id := 2, is_active := true, is_dynamic := true, match_all_rules := false,
    organization_id := 1, rules := [] }

def sampleDb : DB :=
  { segments := [segAnd, segEmptyOr], leads := [sampleLead],
    lead_segments := [], email_templates := [] }

/-! ## Rule-evaluator lemmas -/

/-- Truth of a single rule against a lead: the built condition where one
exists, unsatisfiable otherwise. -/
def ruleHolds (r : SegmentRule) (l : Lead) : Bool :=
  match build_rule_condition r with
  | some c => c l
  | none => false

theorem all_filterMap_build (l : Lead) :
    ∀ (rs : List SegmentRule), (∀ r ∈ rs, (build_rule_condition r).isSome) →
      (rs.filterMap build_rule_condition).all (fun c => c l)
        = rs.all (fun r => ruleHolds r l) := by
  intro rs
  induction rs with
  | nil => intro _; rfl
  | cons r rs ih =>
    intro h
    have hr := h r (List.mem_cons_self r rs)
    cases hb : build_rule_condition r with
    | none => rw [hb] at hr; simp at hr
    | some c =>
      have hrest : ∀ x ∈ rs, (build_rule_condition x).isSome :=
        fun x hx => h x (List.mem_cons_of_mem _ hx)
      simp [List.filterMap_cons, hb, ruleHolds, ih hrest]

theorem any_filterMap_build (l : Lead) :
    ∀ (rs : List SegmentRule), (∀ r ∈ rs, (build_rule_condition r).isSome) →
      (rs.filterMap build_rule_condition).any (fun c => c l)
        = rs.any (fun r => ruleHolds r l) := by
  intro rs
  induction rs with
  | nil => intro _; rfl
  | cons r rs ih =>
    intro h
    have hr := h r (List.mem_cons_self r rs)
    cases hb : build_rule_condition r with
    | none => rw [hb] at hr; simp at hr
    | some c =>
      have hrest : ∀ x ∈ rs, (build_rule_condition x).isSome :=
        fun x hx => h x (List.mem_cons_of_mem _ hx)
      simp [List.filterMap_cons, hb, ruleHolds, ih hrest]

theorem filterMap_build_ne_nil {rs : List SegmentRule} (hne : rs ≠ [])
    (h : ∀ r ∈ rs, (build_rule_condition r).isSome) :
    rs.filterMap build_rule_condition ≠ [] := by
  cases rs with
  | nil => exact absurd rfl hne
  | cons r rs =>
    have hr := h r (List.mem_cons_self r rs)
    cases hb : build_rule_condition r with
    | none => rw [hb] at hr; simp at hr
    | some c => simp [List.filterMap_cons, hb]

theorem mem_evaluate_segment {db : DB} {seg : Segment}
    {lead_ids : Option (List Nat)} {x : Nat} :
    x ∈ evaluate_segment db seg lead_ids ↔
      ∃ l, l ∈ db.leads ∧ evalPred seg lead_ids l = true ∧ l.id = x := by
  simp [evaluate_segment, List.mem_map, List.mem_filter, and_assoc]

/-- With a non-empty, fully well-formed active rule set, the WHERE clause
for the organization's leads is exactly the AND/OR combination of the
active rules. -/
theorem evalPred_none_iff (seg : Segment) (l : Lead)
    (horg : l.organization_id = seg.organization_id)
    (hne : activeRules seg ≠ [])
    (hwf : ∀ r ∈ activeRules seg, (build_rule_condition r).isSome) :
    (evalPred seg none l = true ↔
      (if seg.match_all_rules then ∀ r ∈ activeRules seg, ruleHolds r l = true
       else ∃ r ∈ activeRules seg, ruleHolds r l = true)) := by
  have hrules : seg.rules.isEmpty = false := by
    cases hr : seg.rules with
    | nil => exact absurd (by simp [activeRules, hr]) hne
    | cons a as => rfl
  have hconds : segment_conditions seg
      = (activeRules seg).filterMap build_rule_condition := by
    simp [segment_conditions, hrules]
  have hcne : ((activeRules seg).filterMap build_rule_condition).isEmpty = false := by
    have := filterMap_build_ne_nil hne hwf
    cases hc : (activeRules seg).filterMap build_rule_condition with
    | nil => exact absurd hc this
    | cons a as => rfl
  cases hm : seg.match_all_rules with
  | true =>
    simp only [evalPred, hconds, hcne, hm, pyTruthyIds, if_true, if_false,
      Bool.false_eq_true, Bool.and_eq_true, beq_iff_eq]
    rw [all_filterMap_build l _ hwf]
    simp [List.all_eq_true, horg]
  | false =>
    simp only [evalPred, hconds, hcne, hm, pyTruthyIds, if_true, if_false,
      Bool.false_eq_true, Bool.and_eq_true, beq_iff_eq]
    rw [any_filterMap_build l _ hwf]
    simp [List.any_eq_true, horg]

theorem segment_conditions_mk (seg : Segment) (rs : List SegmentRule) :
    segment_conditions { seg with rules := rs }
      = if rs.isEmpty then []
        else (rs.filter (·.is_active)).filterMap build_rule_condition := rfl

/-- Dropping the inactive rules of a segment never changes the
evaluation. -/
theorem evaluate_segment_activeRules (db : DB) (seg : Segment)
    (lead_ids : Option (List Nat)) :
    evaluate_segment db seg lead_ids
      = evaluate_segment db { seg with rules := activeRules seg } lead_ids := by
  have hidem : List.filter (fun r => r.is_active) (activeRules seg)
      = activeRules seg := by
    simp only [activeRules, List.filter_filter, Bool.and_self]
  have key : segment_conditions { seg with rules := activeRules seg }
      = segment_conditions seg := by
    rw [segment_conditions_mk]
    simp only [segment_conditions, hidem]
    cases hr : seg.rules with
    | nil => simp [activeRules, hr]
    | cons a as =>
      cases hae : activeRules seg with
      | nil => simp
      | cons b bs => simp
  have hp : evalPred { seg with rules := activeRules seg } lead_ids
      = evalPred seg lead_ids := by
    funext l
    simp only [evalPred, key]
  simp only [evaluate_segment, hp]

/-- C1: for a segment with a non-empty, well-formed active rule set, a
lead of the segment's organization is in `matching_leads` iff it
satisfies every active rule's condition (AND-mode) resp. at least one
(OR-mode); inactive rules never affect the result. -/
theorem C1_rule_combination (db : DB) (seg : Segment) (l : Lead)
    (hl : l ∈ db.leads)
    (horg : l.organization_id = seg.organization_id)
    (huniq : ∀ l' ∈ db.leads, l'.id = l.id → l' = l)
    (hne : activeRules seg ≠ [])
    (hwf : ∀ r ∈ activeRules seg, (build_rule_condition r).isSome) :
    (l.id ∈ evaluate_segment db seg none ↔
      (if seg.match_all_rules then ∀ r ∈ activeRules seg, ruleHolds r l = true
       else ∃ r ∈ activeRules seg, ruleHolds r l = true))
    ∧ evaluate_segment db seg none
        = evaluate_segment db { seg with rules := activeRules seg } none := by
  refine ⟨?_, evaluate_segment_activeRules db seg none⟩
  rw [mem_evaluate_segment]
  constructor
  · rintro ⟨l', hl', hpred, hid⟩
    have : l' = l := huniq l' hl' hid
    subst this
    exact (evalPred_none_iff seg l' horg hne hwf).mp hpred
  · intro h
    exact ⟨l, hl, (evalPred_none_iff seg l horg hne hwf).mpr h, rfl⟩

/-- Closed instance of `C1_rule_combination` at a concrete database. -/
theorem C1_rule_combination_witness :
    sampleLead.id ∈ evaluate_segment sampleDb segAnd none
    ∧ evaluate_segment sampleDb segAnd none
        = evaluate_segment sampleDb { segAnd with rules := activeRules segAnd } none := by
  have h := C1_rule_combination sampleDb segAnd sampleLead (by decide) (by decide)
    (by decide) (by decide) (by decide)
  exact ⟨h.1.mpr (by decide), h.2⟩

/-- C10: passing `lead_ids` as the empty list is identical to omitting it:
Python's `if lead_ids:` is falsy for both, so no candidate filter is
added and all of the organization's leads are considered. -/
theorem C10_empty_lead_ids_is_no_filter (db : DB) (seg : Segment) :
    evaluate_segment db seg (some []) = evaluate_segment db seg none := rfl

/-- C2 counterexample: an OR-mode segment with an empty active rule set
matches every lead of its organization — the code never returns the
documented `matchAll` constant (`false` for OR-mode would mean no
matches), because an empty condition list simply adds no WHERE clause. -/
theorem C2_counterexample :
    activeRules segEmptyOr = []
    ∧ segEmptyOr.match_all_rules = false
    ∧ evaluate_segment sampleDb segEmptyOr none = [1] := by
  refine ⟨rfl, rfl, by decide⟩

/-- C2 amended: a segment whose active rule set is empty matches every
candidate lead of its organization, independently of `match_all_rules`
(the evaluator does not return the `matchAll` constant in OR-mode). -/
theorem C2_empty_rules_matches_all (db : DB) (seg : Segment)
    (h : activeRules seg = []) :
    (∀ l ∈ db.leads, l.organization_id = seg.organization_id →
        l.id ∈ evaluate_segment db seg none)
    ∧ (∀ (b : Bool) (lead_ids : Option (List Nat)),
        evaluate_segment db seg lead_ids
          = evaluate_segment db { seg with match_all_rules := b } lead_ids) := by
  have hconds : segment_conditions seg = [] := by
    cases hr : seg.rules with
    | nil => simp [segment_conditions, hr]
    | cons a as => simp [segment_conditions, hr, h]
  constructor
  · intro l hl horg
    rw [mem_evaluate_segment]
    refine ⟨l, hl, ?_, rfl⟩
    simp [evalPred, hconds, pyTruthyIds, horg]
  · intro b lead_ids
    have h2 : segment_conditions { seg with match_all_rules := b } = [] := hconds
    have hp : evalPred { seg with match_all_rules := b } lead_ids
        = evalPred seg lead_ids := by
      funext l
      simp [evalPred, hconds, h2]
    simp only [evaluate_segment, hp]

/-- Closed instance of `C2_empty_rules_matches_all`. -/
theorem C2_empty_rules_matches_all_witness :
    sampleLead.id ∈ evaluate_segment sampleDb segEmptyOr none
    ∧ evaluate_segment sampleDb segEmptyOr none
        = evaluate_segment sampleDb { segEmptyOr with match_all_rules := true } none := by
  have h := C2_empty_rules_matches_all sampleDb segEmptyOr (by decide)
  exact ⟨h.1 sampleLead (by decide) (by decide), h.2 true none⟩

/-- A rule whose value cannot parse as a float for the numeric
`value_estimate` field. -/
def ruleBadFloat : SegmentRule :=
  { field := "value_estimate", operator := "equals", value := "abc",
    is_active := true, rule_order := 0 }

def ruleStatusNew : SegmentRule :=
  { field := "status", operator := "equals", value := "new",
    is_active := true, rule_order := 1 }

/-- The rules whose conditions build, i.e. whose values parse for their
field's declared type. -/
def wellFormedRules (seg : Segment) : List SegmentRule :=
  seg.rules.filter (fun r => (build_rule_condition r).isSome)

/-- An AND-mode segment containing a malformed active rule next to a
satisfied active rule. -/
def segMalformedAnd : Segment :=
  { id := 3, is_active := true, is_dynamic := true, match_all_rules := true,
    organization_id := 1, rules := [ruleBadFloat, ruleStatusNew] }

/-- C6 counterexample: a malformed active rule does NOT contribute `false`
to the AND-combination — the evaluator drops it, so a lead satisfying only
the remaining rule still matches the AND-mode segment, while the claim
requires it not to match. -/
theorem C6_counterexample :
    build_rule_condition ruleBadFloat = none
    ∧ ruleBadFloat.is_active = true
    ∧ segMalformedAnd.match_all_rules = true
    ∧ evaluate_segment sampleDb segMalformedAnd none = [1] := by
  refine ⟨rfl, rfl, rfl, by decide⟩

theorem filterMap_filter_isSome (rs : List SegmentRule) :
    (rs.filter (fun r => (build_rule_condition r).isSome)).filterMap
        build_rule_condition
      = rs.filterMap build_rule_condition := by
  induction rs with
  | nil => rfl
  | cons r rs ih =>
    cases hb : build_rule_condition r with
    | none => simp [List.filter_cons, hb, List.filterMap_cons, ih]
    | some c => simp [List.filter_cons, hb, List.filterMap_cons, ih]

/-- C6 amended: a rule whose value fails to parse is skipped without
aborting evaluation in BOTH modes — it is omitted from the OR-combination
and equally omitted from (not falsified in) the AND-combination: deleting
every unbuildable rule never changes the evaluation. -/
theorem C6_malformed_rules_skipped (db : DB) (seg : Segment)
    (lead_ids : Option (List Nat)) :
    evaluate_segment db seg lead_ids
      = evaluate_segment db { seg with rules := wellFormedRules seg } lead_ids := by
  rw [wellFormedRules]
  have hcomm : ∀ (rs : List SegmentRule),
      (rs.filter (fun r => (build_rule_condition r).isSome)).filter
          (fun r => r.is_active)
        = (rs.filter (fun r => r.is_active)).filter
            (fun r => (build_rule_condition r).isSome) := by
    intro rs
    simp [List.filter_filter, Bool.and_comm]
  have key : segment_conditions { seg with rules := (seg.rules.filter
        (fun r => (build_rule_condition r).isSome)) }
      = segment_conditions seg := by
    rw [segment_conditions_mk]
    cases hr : seg.rules with
    | nil => simp [segment_conditions, hr]
    | cons a as =>
      by_cases hw : (a :: as).filter (fun r => (build_rule_condition r).isSome) = []
      · have hall : ∀ r ∈ a :: as, build_rule_condition r = none := by
          intro r hrm
          by_contra hsome
          have : r ∈ (a :: as).filter (fun r => (build_rule_condition r).isSome) := by
            rw [List.mem_filter]
            refine ⟨hrm, ?_⟩
            cases hb : build_rule_condition r with
            | none => exact absurd hb hsome
            | some c => rfl
          rw [hw] at this
          exact absurd this (List.not_mem_nil r)
        have hnil : (activeRules seg).filterMap build_rule_condition = [] := by
          rw [List.filterMap_eq_nil_iff]
          intro r hrm
          exact hall r (by
            rw [activeRules, hr] at hrm
            exact List.mem_of_mem_filter hrm)
        simp [segment_conditions, hr, hw, hnil]
      · have hw' : ((a :: as).filter
            (fun r => (build_rule_condition r).isSome)).isEmpty = false := by
          cases hx : (a :: as).filter (fun r => (build_rule_condition r).isSome) with
          | nil => exact absurd hx hw
          | cons b bs => rfl
        rw [if_neg (by simp [hw'])]
        rw [hcomm, filterMap_filter_isSome]
        simp [segment_conditions, hr, activeRules]
  have hp : evalPred { seg with rules := (seg.rules.filter
        (fun r => (build_rule_condition r).isSome)) } lead_ids
      = evalPred seg lead_ids := by
    funext l
    simp only [evalPred, key]
  simp only [evaluate_segment, hp]

/-! ## Scheduled-task queue lemmas -/

/-- A fresh due pending task allowing 2 retries. -/
def taskPending : ScheduledTask :=
  { id := 1, task_type := "automation", scheduled_for := 0,
    status := "pending", priority := 0, retry_count := 0, max_retries := 2,
    organization_id := 1 }

/-- A retried task whose rescheduled time has already passed. -/
def taskRetryDue : ScheduledTask :=
  { id := 2, task_type := "automation", scheduled_for := 0,
    status := "retry_scheduled", priority := 0, retry_count := 1,
    max_retries := 3, organization_id := 1 }

def failingHandler : TaskHandler := fun _ => Except.error "handler failure"

def succeedingHandler : TaskHandler := fun _ => Except.ok ()

theorem sortByPriorityDesc_cons (t : ScheduledTask) (l : List ScheduledTask) :
    sortByPriorityDesc (t :: l) = insertByPriorityDesc t (sortByPriorityDesc l) := rfl

theorem mem_insertByPriorityDesc {x t : ScheduledTask}
    {l : List ScheduledTask} :
    x ∈ insertByPriorityDesc t l ↔ x = t ∨ x ∈ l := by
  induction l with
  | nil => simp [insertByPriorityDesc]
  | cons h rest ih =>
    by_cases hc : t.priority ≤ h.priority
    · rw [insertByPriorityDesc, if_pos hc]
      simp only [List.mem_cons, ih]
      tauto
    · rw [insertByPriorityDesc, if_neg hc]
      simp

theorem mem_sortByPriorityDesc {x : ScheduledTask} {l : List ScheduledTask} :
    x ∈ sortByPriorityDesc l ↔ x ∈ l := by
  induction l with
  | nil => simp [sortByPriorityDesc]
  | cons h rest ih =>
    rw [sortByPriorityDesc_cons, mem_insertByPriorityDesc, ih]
    simp

theorem length_insertByPriorityDesc (t : ScheduledTask)
    (l : List ScheduledTask) :
    (insertByPriorityDesc t l).length = l.length + 1 := by
  induction l with
  | nil => rfl
  | cons h rest ih =>
    by_cases hc : t.priority ≤ h.priority
    · rw [insertByPriorityDesc, if_pos hc]
      simp [ih]
    · rw [insertByPriorityDesc, if_neg hc]
      simp

theorem length_sortByPriorityDesc (l : List ScheduledTask) :
    (sortByPriorityDesc l).length = l.length := by
  induction l with
  | nil => rfl
  | cons h rest ih =>
    rw [sortByPriorityDesc_cons, length_insertByPriorityDesc, ih]
    rfl

theorem pairwise_insertByPriorityDesc {t : ScheduledTask}
    {l : List ScheduledTask}
    (h : l.Pairwise (fun a b => b.priority ≤ a.priority)) :
    (insertByPriorityDesc t l).Pairwise (fun a b => b.priority ≤ a.priority) := by
  induction l with
  | nil => simp [insertByPriorityDesc]
  | cons hd rest ih =>
    rcases List.pairwise_cons.mp h with ⟨hhd, hrest⟩
    by_cases hc : t.priority ≤ hd.priority
    · rw [insertByPriorityDesc, if_pos hc, List.pairwise_cons]
      refine ⟨?_, ih hrest⟩
      intro y hy
      rcases mem_insertByPriorityDesc.mp hy with rfl | hy'
      · exact hc
      · exact hhd y hy'
    · rw [insertByPriorityDesc, if_neg hc, List.pairwise_cons]
      refine ⟨?_, h⟩
      intro y hy
      rcases List.mem_cons.mp hy with rfl | hy'
      · exact le_of_lt (lt_of_not_le hc)
      · exact le_trans (hhd y hy') (le_of_lt (lt_of_not_le hc))

theorem pairwise_sortByPriorityDesc (l : List ScheduledTask) :
    (sortByPriorityDesc l).Pairwise (fun a b => b.priority ≤ a.priority) := by
  induction l with
  | nil => simp [sortByPriorityDesc]
  | cons h rest ih =>
    rw [sortByPriorityDesc_cons]
    exact pairwise_insertByPriorityDesc ih

/-- A store with no pending task makes `process_due_tasks` a no-op. -/
theorem process_due_tasks_no_pending (db : TaskDB) (now : Int)
    (handler : TaskHandler) (h : ∀ t ∈ db.tasks, ¬ t.status = "pending") :
    process_due_tasks db now handler = (db, 0) := by
  have hf : db.tasks.filter
      (fun t => decide (t.scheduled_for ≤ now) && t.status == "pending") = [] := by
    rw [List.filter_eq_nil_iff]
    intro t ht
    simp [h t ht]
  have hdue : due_tasks db now = [] := by
    rw [due_tasks, hf]
    rfl
  rw [process_due_tasks, hdue]
  simp

/-- C4 counterexample: a `retry_scheduled` task whose rescheduled time has
already passed is NOT selected by the due query — the query filters on
`status = 'pending'` only, so it is not "selected by the same query as
pending tasks" as the claim states. -/
theorem C4_counterexample :
    taskRetryDue ∈ (⟨[taskRetryDue]⟩ : TaskDB).tasks
    ∧ taskRetryDue.scheduled_for ≤ 10
    ∧ taskRetryDue.status = "retry_scheduled"
    ∧ due_tasks ⟨[taskRetryDue]⟩ 10 = [] := by
  refine ⟨by decide, by decide, rfl, by decide⟩

/-- C4 amended: the due query selects only tasks with
`scheduled_for <= now` and `status = 'pending'` (never `retry_scheduled`
ones), orders them by priority descending with no secondary key, and caps
the batch at the hard-coded limit 100 (`process_due_tasks` takes no limit
argument); every pending due task is selected whenever the store holds at
most 100 tasks. -/
theorem C4_due_selection (db : TaskDB) (now : Int) :
    (∀ t ∈ due_tasks db now,
        t ∈ db.tasks ∧ t.scheduled_for ≤ now ∧ t.status = "pending")
    ∧ (due_tasks db now).length ≤ 100
    ∧ (due_tasks db now).Pairwise (fun a b => b.priority ≤ a.priority)
    ∧ (db.tasks.length ≤ 100 →
        ∀ t ∈ db.tasks, t.status = "pending" → t.scheduled_for ≤ now →
          t ∈ due_tasks db now) := by
  refine ⟨?_, ?_, ?_, ?_⟩
  · intro t ht
    have h1 : t ∈ sortByPriorityDesc (db.tasks.filter
        (fun t => decide (t.scheduled_for ≤ now) && t.status == "pending")) :=
      List.take_subset _ _ ht
    have h2 := mem_sortByPriorityDesc.mp h1
    rcases List.mem_filter.mp h2 with ⟨hmem, hprop⟩
    simp only [Bool.and_eq_true, decide_eq_true_eq, beq_iff_eq] at hprop
    exact ⟨hmem, hprop.1, hprop.2⟩
  · rw [due_tasks, List.length_take]
    exact min_le_left _ _
  · exact (pairwise_sortByPriorityDesc _).sublist (List.take_sublist _ _)
  · intro hlen t ht hs hd
    have hmemf : t ∈ db.tasks.filter
        (fun t => decide (t.scheduled_for ≤ now) && t.status == "pending") := by
      rw [List.mem_filter]
      exact ⟨ht, by simp [hd, hs]⟩
    have hlenf : (sortByPriorityDesc (db.tasks.filter
        (fun t => decide (t.scheduled_for ≤ now) && t.status == "pending"))).length
          ≤ 100 := by
      rw [length_sortByPriorityDesc]
      exact le_trans (List.length_filter_le _ _) hlen
    rw [due_tasks, List.take_of_length_le hlenf]
    exact mem_sortByPriorityDesc.mpr hmemf

/-- Closed instance of `C4_due_selection`. -/
theorem C4_due_selection_witness :
    (taskPending ∈ (⟨[taskPending]⟩ : TaskDB).tasks
      ∧ taskPending.scheduled_for ≤ 5 ∧ taskPending.status = "pending")
    ∧ (due_tasks ⟨[taskPending]⟩ 5).length ≤ 100
    ∧ taskPending ∈ due_tasks ⟨[taskPending]⟩ 5 := by
  have h := C4_due_selection ⟨[taskPending]⟩ 5
  exact ⟨h.1 taskPending (by decide), h.2.1,
    h.2.2.2 (by decide) taskPending (by decide) (by decide) (by decide)⟩

/-- C3 counterexample: a fresh task with `maxRetries = 2` whose handler
always fails is NOT failed after 3 attempts — the first call already sets
`retry_scheduled` with `retryCount = 1` (the code increments before
comparing), and every later `process_due_tasks` call skips it entirely
because the due query only selects `status = 'pending'`; it never reaches
`failed`. -/
theorem C3_counterexample :
    taskPending.max_retries = 2
    ∧ (process_due_tasks (process_due_tasks (process_due_tasks
          ⟨[taskPending]⟩ 10 failingHandler).1 1000 failingHandler).1
          100000 failingHandler).1.tasks
        = [{ taskPending with
              status := "retry_scheduled", retry_count := 1, scheduled_for := 310 }] := by
  refine ⟨rfl, by decide⟩

/-- C3 amended: a fresh due pending task whose handler fails is attempted
exactly once: with `maxRetries <= 1` that sole attempt marks it `failed`
with `retryCount = 1`; with `maxRetries >= 2` it becomes `retry_scheduled`
with `retryCount = 1` and `scheduledFor = now + 300` (the 5-minute
backoff), and no later `process_due_tasks` call ever selects it again, so
it never transitions to `failed`.  The handler failure is not counted in
the returned `processed_count`. -/
theorem C3_retry_transitions (t : ScheduledTask) (now : Int)
    (handler : TaskHandler) (msg : String)
    (hstatus : t.status = "pending") (hdue : t.scheduled_for ≤ now)
    (hrc : t.retry_count = 0) (hfail : handler t = Except.error msg) :
    (process_due_tasks ⟨[t]⟩ now handler).2 = 0
    ∧ (t.max_retries ≤ 1 →
        (process_due_tasks ⟨[t]⟩ now handler).1.tasks
          = [{ t with status := "failed", retry_count := 1 }])
    ∧ (2 ≤ t.max_retries →
        (process_due_tasks ⟨[t]⟩ now handler).1.tasks
          = [{ t with
                status := "retry_scheduled", retry_count := 1, scheduled_for := now + 300 }]
        ∧ ∀ (now2 : Int) (handler2 : TaskHandler),
            process_due_tasks (process_due_tasks ⟨[t]⟩ now handler).1
                now2 handler2
              = ((process_due_tasks ⟨[t]⟩ now handler).1, 0)) := by
  have hdue1 : due_tasks ⟨[t]⟩ now = [t] := by
    rw [due_tasks]
    have hf : (⟨[t]⟩ : TaskDB).tasks.filter
        (fun u => decide (u.scheduled_for ≤ now) && u.status == "pending") = [t] := by
      simp [List.filter_cons, hdue, hstatus]
    rw [hf]
    rfl
  have hcount : (process_due_tasks ⟨[t]⟩ now handler).2 = 0 := by
    rw [process_due_tasks, hdue1]
    simp [handlerOk, hfail]
  refine ⟨hcount, ?_, ?_⟩
  · intro hmax
    rw [process_due_tasks, hdue1]
    have hp : process_one_task now handler t
        = { t with status := "failed", retry_count := 1 } := by
      rw [process_one_task, hfail]
      rw [hrc]
      rw [if_pos (by omega)]
    simp [hp]
  · intro hmax
    have hp : process_one_task now handler t
        = { t with
            status := "retry_scheduled", retry_count := 1, scheduled_for := now + 300 } := by
      rw [process_one_task, hfail]
      rw [hrc]
      rw [if_neg (by omega)]
    have htasks : (process_due_tasks ⟨[t]⟩ now handler).1.tasks
        = [{ t with
              status := "retry_scheduled", retry_count := 1, scheduled_for := now + 300 }] := by
      rw [process_due_tasks, hdue1]
      simp [hp]
    refine ⟨htasks, ?_⟩
    intro now2 handler2
    apply process_due_tasks_no_pending
    intro u hu
    rw [htasks] at hu
    rcases List.mem_singleton.mp hu with rfl
    intro habs
    simp at habs


/-- Closed instance of `C3_retry_transitions`. -/
theorem C3_retry_transitions_witness :
    (process_due_tasks ⟨[taskPending]⟩ 10 failingHandler).2 = 0
    ∧ (process_due_tasks ⟨[taskPending]⟩ 10 failingHandler).1.tasks
        = [{ taskPending with
              status := "retry_scheduled", retry_count := 1, scheduled_for := 10 + 300 }]
    ∧ process_due_tasks (process_due_tasks ⟨[taskPending]⟩ 10 failingHandler).1
          99 failingHandler
        = ((process_due_tasks ⟨[taskPending]⟩ 10 failingHandler).1, 0) := by
  have h := C3_retry_transitions taskPending 10 failingHandler "handler failure"
    (by decide) (by decide) (by decide) rfl
  rcases h with ⟨h0, _, h2⟩
  rcases h2 (by decide) with ⟨ha, hb⟩
  exact ⟨h0, ha, hb 99 failingHandler⟩


/-! ## C9: concurrent processing -/

/-- C9: `process_due_tasks` performs no exclusive claim — a task's status
is only written back after its handler has run — so two concurrent calls
that both execute their SELECT before either write-back each process the
same task: in this interleaving both calls claim the single eligible task,
giving 2 successful claims for 1 eligible task, where the claim requires
the sum of claims to equal the eligible count. -/
theorem C9_double_processing :
    (due_tasks ⟨[taskPending]⟩ 10).length = 1
    ∧ schedRun 10 succeedingHandler
        { store := [taskPending], procA := .idle, procB := .idle }
        [.selectA, .selectB, .stepA, .stepB, .stepA, .stepB]
        = some { store := [{ taskPending with status := "completed" }],
                 procA := .finished 1, procB := .finished 1 } := by
  refine ⟨by decide, by decide⟩

/-! ## Automation-pipeline lemmas -/

theorem lookup_dictInsert_self (m : List (String × ActionOutcome))
    (k : String) (v : ActionOutcome) :
    (dictInsert m k v).lookup k = some v := by
  induction m with
  | nil => simp [dictInsert, List.lookup]
  | cons p rest ih =>
    rcases p with ⟨k1, v1⟩
    by_cases h : k1 = k
    · rw [dictInsert, if_pos (beq_iff_eq.mpr h)]
      simp [List.lookup]
    · rw [dictInsert, if_neg (by simp [h])]
      simp [List.lookup, beq_eq_false_iff_ne.mpr (Ne.symm h), ih]

theorem lookup_dictInsert_isSome_of (m : List (String × ActionOutcome))
    (k : String) (v : ActionOutcome) (k2 : String)
    (h : (m.lookup k2).isSome) :
    ((dictInsert m k v).lookup k2).isSome := by
  by_cases hkk : k2 = k
  · subst hkk
    rw [lookup_dictInsert_self]
    rfl
  · induction m with
    | nil => simp [List.lookup] at h
    | cons p rest ih =>
      rcases p with ⟨k1, v1⟩
      by_cases h1 : k1 = k
      · subst h1
        rw [dictInsert, if_pos (beq_iff_eq.mpr rfl)]
        simp only [List.lookup, beq_eq_false_iff_ne.mpr hkk] at h ⊢
        exact h
      · rw [dictInsert, if_neg (by simp [h1])]
        by_cases h2 : k2 = k1
        · subst h2
          simp [List.lookup]
        · simp only [List.lookup, beq_eq_false_iff_ne.mpr h2] at h ⊢
          exact ih h

theorem run_actions_triggered (lead_id : Option Nat) (td : TriggerData) :
    ∀ (actions : List AutomationAction) (db : DB) (ts : List String)
      (log : List (String × ActionOutcome)),
      (run_actions lead_id td none actions db ts log).1
        = ts ++ (actions.filter (·.is_active)).map (·.action_type) := by
  intro actions
  induction actions with
  | nil => intro db ts log; simp [run_actions]
  | cons a rest ih =>
    intro db ts log
    by_cases ha : a.is_active
    · simp [run_actions, ha, ih, List.filter_cons]
    · simp [run_actions, ha, ih, List.filter_cons]

theorem run_actions_log_keys (lead_id : Option Nat) (td : TriggerData) :
    ∀ (actions : List AutomationAction) (db : DB) (ts : List String)
      (log : List (String × ActionOutcome)),
      (∀ s ∈ ts, (log.lookup s).isSome) →
      ∀ s ∈ (run_actions lead_id td none actions db ts log).1,
        (((run_actions lead_id td none actions db ts log).2.1).lookup s).isSome := by
  intro actions
  induction actions with
  | nil =>
    intro db ts log hinv s hs
    simpa [run_actions] using hinv s (by simpa [run_actions] using hs)
  | cons a rest ih =>
    intro db ts log hinv s hs
    by_cases ha : a.is_active
    · rw [run_actions] at hs ⊢
      simp only [ha, if_true] at hs ⊢
      have hfalse : ((none : Option Nat) == some ts.length) = false := rfl
      rw [hfalse] at hs ⊢
      simp only [Bool.false_eq_true, if_false] at hs ⊢
      refine ih _ _ _ ?_ s hs
      intro u hu
      rcases List.mem_append.mp hu with hu1 | hu2
      · exact lookup_dictInsert_isSome_of _ _ _ _ (hinv u hu1)
      · rcases List.mem_singleton.mp hu2 with rfl
        rw [lookup_dictInsert_self]
        rfl
    · rw [run_actions] at hs ⊢
      simp only [ha] at hs ⊢
      exact ih _ _ _ hinv s hs

/-- C5 amended: with no fault, a failing action never halts the chain —
every active action executes in order, the run completes with an outcome
recorded in the log under every executed action's type (the log is keyed
by action type, so a later action of the same type overwrites an earlier
one's outcome), and the final status is `completed`; an unexpected
exception escaping the iteration instead marks the run `failed` with the
exception message captured in the execution log. -/
theorem C5_best_effort (db : DB) (auto : Automation) (lead_id : Option Nat)
    (td : TriggerData) (hact : auto.is_active = true) :
    ((trigger_automation db (some auto) lead_id td none).success = true
     ∧ (trigger_automation db (some auto) lead_id td none).triggered_actions
         = (auto.actions.filter (·.is_active)).map (·.action_type)
     ∧ (∃ entries,
         (trigger_automation db (some auto) lead_id td none).run
           = some { automation_id := auto.id, lead_id := lead_id,
                    status := "completed", execution_log := .completed entries,
                    completed_at_set := true }
         ∧ ∀ s ∈ (trigger_automation db (some auto) lead_id td none).triggered_actions,
             (entries.lookup s).isSome))
    ∧ ∀ (k : Nat) (msg : String),
        (trigger_automation db (some auto) lead_id td (some (k, msg))).success = false
        ∧ ∃ entries,
            (trigger_automation db (some auto) lead_id td (some (k, msg))).run
              = some { automation_id := auto.id, lead_id := lead_id,
                       status := "failed",
                       execution_log := .failed msg
                         (trigger_automation db (some auto) lead_id td
                           (some (k, msg))).triggered_actions entries,
                       completed_at_set := true } := by
  constructor
  · refine ⟨?_, ?_, ?_⟩
    · simp [trigger_automation, hact]
    · simp only [trigger_automation, hact, Bool.not_true, Bool.false_eq_true,
        if_false]
      exact run_actions_triggered lead_id td auto.actions db [] []
    · refine ⟨(run_actions lead_id td none auto.actions db [] []).2.1, ?_, ?_⟩
      · simp [trigger_automation, hact]
      · simp only [trigger_automation, hact, Bool.not_true, Bool.false_eq_true,
          if_false]
        exact run_actions_log_keys lead_id td auto.actions db [] []
          (by intro s hs; simp at hs)
  · intro k msg
    constructor
    · simp [trigger_automation, hact]
    · refine ⟨(run_actions lead_id td (some k) auto.actions db [] []).2.1, ?_⟩
      simp [trigger_automation, hact]

/-- The middle action of this automation has an unrecognized type and so
reports failure; the surrounding actions succeed. -/
def autoMidFail : Automation :=
  { id := 5, is_active := true, organization_id := 1,
    actions :=
      [{ id := 1, action_type := "create_task", action_order := 0,
         is_active := true, configuration := [] },
       { id := 2, action_type := "bogus_action", action_order := 1,
         is_active := true, configuration := [] },
       { id := 3, action_type := "send_notification", action_order := 2,
         is_active := true, configuration := [] }] }

/-- Closed instance of `C5_best_effort`: the automation whose second
action fails still executes all three actions and completes. -/
theorem C5_best_effort_witness :
    (trigger_automation sampleDb (some autoMidFail) (some 1) [] none).success = true
    ∧ (trigger_automation sampleDb (some autoMidFail) (some 1) [] none).triggered_actions
        = (autoMidFail.actions.filter (·.is_active)).map (·.action_type)
    ∧ (trigger_automation sampleDb (some autoMidFail) (some 1) []
        (some (0, "db error"))).success = false := by
  have h := C5_best_effort sampleDb autoMidFail (some 1) [] rfl
  exact ⟨h.1.1, h.1.2.1, (h.2 0 "db error").1⟩

def actAddTagNoConfig : AutomationAction :=
  { id := 1, action_type := "add_tag", action_order := 0, is_active := true,
    configuration := [] }

def actAddTagX : AutomationAction :=
  { id := 2, action_type := "add_tag", action_order := 1, is_active := true,
    configuration := [("tag", .str "x")] }

/-- Two active actions of the same type. -/
def autoDupTag : Automation :=
  { id := 7, is_active := true, organization_id := 1,
    actions := [actAddTagNoConfig, actAddTagX] }

/-- C5 counterexample: the execution log is keyed by action type, so when
two executed active actions share a type the log holds only ONE entry and
the first action's outcome (here a failure for missing config) appears
nowhere in it — the log does not contain an outcome for every executed
active action as the claim states. -/
theorem C5_counterexample :
    (trigger_automation sampleDb (some autoDupTag) (some 1) [] none).triggered_actions.length = 2
    ∧ ((trigger_automation sampleDb (some autoDupTag) (some 1) [] none).run.map
        (fun r => r.execution_log.entries.length)) = some 1
    ∧ (execute_automation_action sampleDb actAddTagNoConfig (some 1) []).1.success = false
    ∧ ((trigger_automation sampleDb (some autoDupTag) (some 1) [] none).run.map
        (fun r => (r.execution_log.entries.map Prod.snd).contains
          (execute_automation_action sampleDb actAddTagNoConfig (some 1) []).1))
      = some false := by
  refine ⟨by decide, by decide, by decide, by decide⟩


/-! ## Membership-state lemmas -/

theorem mem_activeLeadIds {db : DB} {sid x : Nat} :
    x ∈ activeLeadIds db sid ↔
      ∃ r ∈ db.lead_segments,
        r.segment_id = sid ∧ r.is_active = true ∧ r.lead_id = x := by
  simp only [activeLeadIds, List.mem_map, List.mem_filter, Bool.and_eq_true,
    beq_iff_eq]
  constructor
  · rintro ⟨r, ⟨hr, hsid, hact⟩, hx⟩
    exact ⟨r, hr, hsid, hact, hx⟩
  · rintro ⟨r, hr, hsid, hact, hx⟩
    exact ⟨r, ⟨hr, hsid, hact⟩, hx⟩

/-- `remove_leads_from_segment` leaves exactly the active rows whose lead
is outside the removed id set. -/
theorem remove_active (db : DB) (sid : Nat) (ids : List Nat) (x : Nat) :
    x ∈ activeLeadIds (remove_leads_from_segment db sid ids).1 sid ↔
      x ∈ activeLeadIds db sid ∧ x ∉ ids := by
  rw [mem_activeLeadIds, mem_activeLeadIds]
  simp only [remove_leads_from_segment, List.mem_map]
  constructor
  · rintro ⟨r2, ⟨r, hr, rfl⟩, hsid, hact, hx⟩
    by_cases hp : (r.segment_id == sid && ids.contains r.lead_id) = true
    · rw [if_pos hp] at hact hsid hx
      simp at hact
    · rw [if_neg hp] at hact hsid hx
      have hnx : x ∉ ids := by
        intro hmem
        apply hp
        simp only [Bool.and_eq_true, beq_iff_eq]
        exact ⟨hsid, by rw [hx]; exact List.elem_eq_true_of_mem hmem⟩
      exact ⟨⟨r, hr, hsid, hact, hx⟩, hnx⟩
  · rintro ⟨⟨r, hr, hsid, hact, hx⟩, hnx⟩
    have hp : (r.segment_id == sid && ids.contains r.lead_id) = false := by
      rw [Bool.and_eq_false_iff]
      right
      rw [← Bool.not_eq_true]
      intro hc
      exact hnx (hx ▸ (List.mem_of_elem_eq_true hc))
    refine ⟨r, ⟨r, hr, ?_⟩, hsid, hact, hx⟩
    rw [hp]
    simp

/-- `add_leads_to_segment` on an existing segment makes exactly the given
ids and the previously active leads active. -/
theorem add_active (db : DB) (sid : Nat) (ids : List Nat) (x : Nat)
    (hseg : (get_segment_by_id db sid).isSome) :
    x ∈ activeLeadIds (add_leads_to_segment db sid ids).1 sid ↔
      x ∈ ids ∨ x ∈ activeLeadIds db sid := by
  rcases Option.isSome_iff_exists.mp hseg with ⟨s, hs⟩
  rw [mem_activeLeadIds, mem_activeLeadIds]
  simp only [add_leads_to_segment, hs, List.mem_append, List.mem_map]
  constructor
  · rintro ⟨r2, hr2, hsid, hact, hx⟩
    rcases hr2 with ⟨r, hr, rfl⟩ | hnew
    · by_cases hp : (r.segment_id == sid && ids.contains r.lead_id) = true
      · rw [if_pos hp] at hsid hx
        rw [Bool.and_eq_true] at hp
        rcases hp with ⟨_, hin⟩
        exact Or.inl (hx ▸ List.mem_of_elem_eq_true hin)
      · rw [if_neg hp] at hsid hact hx
        exact Or.inr ⟨r, hr, hsid, hact, hx⟩
    · rcases hnew with ⟨lid, hlid, rfl⟩
      have : lid ∈ ids := List.mem_of_mem_filter hlid
      exact Or.inl (by simpa using (show lid = x from hx) ▸ this)
  · intro h
    rcases h with hid | ⟨r, hr, hsid, hact, hx⟩
    · by_cases hex : ∃ r ∈ db.lead_segments, r.segment_id = sid ∧ r.lead_id = x
      · rcases hex with ⟨r, hr, hrs, hrx⟩
        have hp : (r.segment_id == sid && ids.contains r.lead_id) = true := by
          simp only [Bool.and_eq_true, beq_iff_eq]
          exact ⟨hrs, by rw [hrx]; exact List.elem_eq_true_of_mem hid⟩
        refine ⟨_, Or.inl ⟨r, hr, rfl⟩, ?_⟩
        rw [if_pos hp]
        exact ⟨hrs, rfl, hrx⟩
      · have hnx : x ∉ (db.lead_segments.filter (fun r =>
            r.segment_id == sid && ids.contains r.lead_id)).map (·.lead_id) := by
          intro hmem
          rcases List.mem_map.mp hmem with ⟨r, hrf, hrx⟩
          rcases List.mem_filter.mp hrf with ⟨hr, hp⟩
          rw [Bool.and_eq_true] at hp
          exact hex ⟨r, hr, beq_iff_eq.mp hp.1, hrx⟩
        have hx' : x ∈ ids.filter (fun lid =>
            !((db.lead_segments.filter (fun r =>
              r.segment_id == sid && ids.contains r.lead_id)).map (·.lead_id)).contains lid) := by
          rw [List.mem_filter]
          refine ⟨hid, ?_⟩
          rw [Bool.not_eq_true']
          rw [← Bool.not_eq_true]
          intro hc
          exact hnx (List.mem_of_elem_eq_true hc)
        exact ⟨_, Or.inr ⟨x, hx', rfl⟩, rfl, rfl, rfl⟩
    · by_cases hp : (r.segment_id == sid && ids.contains r.lead_id) = true
      · refine ⟨_, Or.inl ⟨r, hr, rfl⟩, ?_⟩
        rw [if_pos hp]
        exact ⟨hsid, rfl, hx⟩
      · refine ⟨_, Or.inl ⟨r, hr, rfl⟩, ?_⟩
        rw [if_neg hp]
        exact ⟨hsid, hact, hx⟩

theorem add_leads_same_segments (db : DB) (sid : Nat) (ids : List Nat) :
    (add_leads_to_segment db sid ids).1.segments = db.segments
    ∧ (add_leads_to_segment db sid ids).1.leads = db.leads := by
  rw [add_leads_to_segment]
  cases get_segment_by_id db sid <;> simp

theorem remove_leads_same_segments (db : DB) (sid : Nat) (ids : List Nat) :
    (remove_leads_from_segment db sid ids).1.segments = db.segments
    ∧ (remove_leads_from_segment db sid ids).1.leads = db.leads := by
  rw [remove_leads_from_segment]
  simp

theorem evaluate_segment_leads_eq {db db2 : DB} (h : db.leads = db2.leads)
    (seg : Segment) (lead_ids : Option (List Nat)) :
    evaluate_segment db seg lead_ids = evaluate_segment db2 seg lead_ids := by
  simp [evaluate_segment, h]

theorem get_segment_segments_eq {db db2 : DB} (h : db.segments = db2.segments)
    (sid : Nat) : get_segment_by_id db sid = get_segment_by_id db2 sid := by
  simp [get_segment_by_id, h]


/-- A static segment used for explicit membership. -/
def segStatic : Segment :=
  { id := 9, is_active := true, is_dynamic := false, match_all_rules := true,
    organization_id := 1, rules := [] }

/-- A store where lead 1 is already an active member of segment 9. -/
def dbActiveMember : DB :=
  { segments := [segStatic], leads := [sampleLead],
    lead_segments := [{ lead_id := 1, segment_id := 9, is_active := true }],
    email_templates := [] }

/-- C8 counterexample: for a lead that was already an active member,
add-then-remove does NOT return membership to its prior active-state —
the remove pass deactivates it, leaving the active set empty where it
previously contained the lead. -/
theorem C8_counterexample :
    activeLeadIds dbActiveMember 9 = [1]
    ∧ (remove_leads_from_segment
          (add_leads_to_segment dbActiveMember 9 [1]).1 9 [1]).1.lead_segments
        = [{ lead_id := 1, segment_id := 9, is_active := false }]
    ∧ activeLeadIds
        (remove_leads_from_segment
          (add_leads_to_segment dbActiveMember 9 [1]).1 9 [1]).1 9 = [] := by
  refine ⟨by decide, by decide, by decide⟩

theorem setActive_fields (r : LeadSegmentRow) (sid : Nat) (ids : List Nat)
    (b : Bool) :
    ((if r.segment_id == sid && ids.contains r.lead_id then
        { r with is_active := b } else r).lead_id = r.lead_id)
    ∧ ((if r.segment_id == sid && ids.contains r.lead_id then
        { r with is_active := b } else r).segment_id = r.segment_id) := by
  by_cases hp : (r.segment_id == sid && ids.contains r.lead_id) = true
  · rw [if_pos hp]
    exact ⟨rfl, rfl⟩
  · rw [if_neg hp]
    exact ⟨rfl, rfl⟩

theorem setInactive_is_active (r : LeadSegmentRow) (sid : Nat)
    (ids : List Nat) :
    (if r.segment_id == sid && ids.contains r.lead_id then
        { r with is_active := false } else r).is_active = r.is_active
    ∨ (if r.segment_id == sid && ids.contains r.lead_id then
        { r with is_active := false } else r).is_active = false := by
  by_cases hp : (r.segment_id == sid && ids.contains r.lead_id) = true
  · rw [if_pos hp]
    exact Or.inr rfl
  · rw [if_neg hp]
    exact Or.inl rfl

/-- C8 amended: `add_leads_to_segment` followed by
`remove_leads_from_segment` on the same id set deactivates every lead of
the set (restoring the prior active-state exactly for the leads that were
not active members beforehand) and leaves every other lead's active
membership unchanged; no row is ever deleted — every existing row survives
with its lead and segment ids, the row count never decreases, and removal
alone only flips `is_active` to `false` on existing rows. -/
theorem C8_add_then_remove (db : DB) (sid : Nat) (ids : List Nat) :
    (∀ r ∈ db.lead_segments,
        ∃ r2 ∈ (remove_leads_from_segment
            (add_leads_to_segment db sid ids).1 sid ids).1.lead_segments,
          r2.lead_id = r.lead_id ∧ r2.segment_id = r.segment_id)
    ∧ db.lead_segments.length
        ≤ (remove_leads_from_segment
            (add_leads_to_segment db sid ids).1 sid ids).1.lead_segments.length
    ∧ (∀ x, x ∉ ids →
        (x ∈ activeLeadIds (remove_leads_from_segment
            (add_leads_to_segment db sid ids).1 sid ids).1 sid
          ↔ x ∈ activeLeadIds db sid))
    ∧ (∀ x, x ∈ ids →
        x ∉ activeLeadIds (remove_leads_from_segment
            (add_leads_to_segment db sid ids).1 sid ids).1 sid)
    ∧ (remove_leads_from_segment db sid ids).1.lead_segments.length
        = db.lead_segments.length
    ∧ (∀ r2 ∈ (remove_leads_from_segment db sid ids).1.lead_segments,
        ∃ r ∈ db.lead_segments, r2.lead_id = r.lead_id
          ∧ r2.segment_id = r.segment_id
          ∧ (r2.is_active = r.is_active ∨ r2.is_active = false)) := by
  refine ⟨?_, ?_, ?_, ?_, ?_, ?_⟩
  · intro r hr
    have hmem : r ∈ (add_leads_to_segment db sid ids).1.lead_segments
        ∨ (if r.segment_id == sid && ids.contains r.lead_id then
            { r with is_active := true } else r)
          ∈ (add_leads_to_segment db sid ids).1.lead_segments := by
      rw [add_leads_to_segment]
      cases get_segment_by_id db sid with
      | none => exact Or.inl hr
      | some s =>
        refine Or.inr ?_
        simp only [List.mem_append, List.mem_map]
        exact Or.inl ⟨r, hr, rfl⟩
    rcases hmem with hmem | hmem
    · refine ⟨if r.segment_id == sid && ids.contains r.lead_id then
          { r with is_active := false } else r, ?_, ?_, ?_⟩
      · rw [remove_leads_from_segment]
        exact List.mem_map.mpr ⟨r, hmem, rfl⟩
      · exact (setActive_fields r sid ids false).1
      · exact (setActive_fields r sid ids false).2
    · set r1 : LeadSegmentRow :=
        if r.segment_id == sid && ids.contains r.lead_id then
          { r with is_active := true } else r with hr1
      have hfields : r1.lead_id = r.lead_id ∧ r1.segment_id = r.segment_id :=
        setActive_fields r sid ids true
      refine ⟨if r1.segment_id == sid && ids.contains r1.lead_id then
          { r1 with is_active := false } else r1, ?_, ?_, ?_⟩
      · rw [remove_leads_from_segment]
        exact List.mem_map.mpr ⟨r1, hmem, rfl⟩
      · rw [(setActive_fields r1 sid ids false).1]
        exact hfields.1
      · rw [(setActive_fields r1 sid ids false).2]
        exact hfields.2
  · rw [remove_leads_from_segment]
    simp only [List.length_map]
    rw [add_leads_to_segment]
    cases get_segment_by_id db sid with
    | none => simp
    | some s =>
      simp only [List.length_append, List.length_map]
      exact Nat.le_add_right _ _
  · intro x hx
    rw [remove_active]
    have hiff : x ∈ activeLeadIds (add_leads_to_segment db sid ids).1 sid
        ↔ x ∈ activeLeadIds db sid := by
      cases hseg : get_segment_by_id db sid with
      | none =>
        have hadd : (add_leads_to_segment db sid ids).1 = db := by
          rw [add_leads_to_segment, hseg]
        rw [hadd]
      | some s =>
        rw [add_active db sid ids x (by rw [hseg]; rfl)]
        constructor
        · rintro (h | h)
          · exact absurd h hx
          · exact h
        · exact Or.inr
    rw [hiff]
    exact ⟨fun h => h.1, fun h => ⟨h, hx⟩⟩
  · intro x hx h
    rw [remove_active] at h
    exact h.2 hx
  · rw [remove_leads_from_segment]
    simp
  · intro r2 hr2
    rw [remove_leads_from_segment] at hr2
    rcases List.mem_map.mp hr2 with ⟨r, hr, rfl⟩
    exact ⟨r, hr, (setActive_fields r sid ids false).1,
      (setActive_fields r sid ids false).2, setInactive_is_active r sid ids⟩

/-- Closed instance of `C8_add_then_remove`. -/
theorem C8_add_then_remove_witness :
    (2 ∉ activeLeadIds (remove_leads_from_segment
          (add_leads_to_segment dbActiveMember 9 [1]).1 9 [1]).1 9
        ↔ 2 ∉ activeLeadIds dbActiveMember 9)
    ∧ 1 ∉ activeLeadIds (remove_leads_from_segment
          (add_leads_to_segment dbActiveMember 9 [1]).1 9 [1]).1 9
    ∧ (remove_leads_from_segment dbActiveMember 9 [1]).1.lead_segments.length
        = dbActiveMember.lead_segments.length := by
  have h := C8_add_then_remove dbActiveMember 9 [1]
  exact ⟨not_congr (h.2.2.1 2 (by decide)), h.2.2.2.1 1 (by decide),
    h.2.2.2.2.1⟩


/-- When the active membership of a segment already coincides with its
evaluation, `update_segment_memberships` computes an empty diff and is a
no-op returning `0`. -/
theorem update_noop_of_no_diff (db : DB) (sid : Nat) (seg : Segment)
    (hseg : get_segment_by_id db sid = some seg)
    (hactive : ∀ x, x ∈ activeLeadIds db sid ↔ x ∈ evaluate_segment db seg none) :
    update_segment_memberships db sid = (db, 0) := by
  have hta : (evaluate_segment db seg none).filter
      (fun lid => !(((db.lead_segments.filter
          (fun r => r.segment_id == sid && r.is_active)).map
          (fun r => r.lead_id)).dedup).contains lid) = [] := by
    rw [List.filter_eq_nil_iff]
    intro lid hlid
    have hmem : lid ∈ ((db.lead_segments.filter
        (fun r => r.segment_id == sid && r.is_active)).map
        (fun r => r.lead_id)).dedup := by
      rw [List.mem_dedup]
      exact (hactive lid).mpr hlid
    simp [hmem]
  have htr : (((db.lead_segments.filter
      (fun r => r.segment_id == sid && r.is_active)).map
      (fun r => r.lead_id)).dedup).filter
      (fun lid => !(evaluate_segment db seg none).contains lid) = [] := by
    rw [List.filter_eq_nil_iff]
    intro lid hlid
    have hmem : lid ∈ evaluate_segment db seg none := by
      apply (hactive lid).mp
      exact List.mem_dedup.mp hlid
    simp [hmem]
  simp only [update_segment_memberships, hseg]
  by_cases hdyn : seg.is_dynamic
  · simp only [hdyn, Bool.not_true, Bool.false_eq_true, if_false]
    rw [hta, htr]
    simp
  · simp [hdyn]

/-- C7: `update_segment_memberships` is idempotent — after one update, a
second call with no underlying data change computes an empty diff: it
returns `0` and leaves every membership row unchanged. -/
theorem C7_update_memberships_idempotent (db : DB) (sid : Nat) :
    update_segment_memberships (update_segment_memberships db sid).1 sid
      = ((update_segment_memberships db sid).1, 0) := by
  cases hseg : get_segment_by_id db sid with
  | none =>
    have h1 : update_segment_memberships db sid = (db, 0) := by
      simp only [update_segment_memberships, hseg]
    rw [h1]
    exact h1
  | some seg =>
    by_cases hdyn : seg.is_dynamic
    · -- dynamic segment: analyse the state after the first call
      set M := evaluate_segment db seg none with hM
      set cur := ((db.lead_segments.filter
          (fun r => r.segment_id == sid && r.is_active)).map
          (fun r => r.lead_id)).dedup with hcurdef
      set ta := M.filter (fun lid => !cur.contains lid) with hta_def
      set tr := cur.filter (fun lid => !M.contains lid) with htr_def
      set db1 := if ta.isEmpty then db
        else (add_leads_to_segment db sid ta).1 with hdb1_def
      set db2 := if tr.isEmpty then db1
        else (remove_leads_from_segment db1 sid tr).1 with hdb2_def
      have hres : (update_segment_memberships db sid).1 = db2 := by
        simp only [update_segment_memberships, hseg, hdyn, Bool.not_true,
          Bool.false_eq_true, if_false]
      have hsegs1 : db1.segments = db.segments := by
        rw [hdb1_def]
        by_cases h1 : ta.isEmpty
        · rw [if_pos h1]
        · rw [if_neg h1]
          exact (add_leads_same_segments db sid ta).1
      have hleads1 : db1.leads = db.leads := by
        rw [hdb1_def]
        by_cases h1 : ta.isEmpty
        · rw [if_pos h1]
        · rw [if_neg h1]
          exact (add_leads_same_segments db sid ta).2
      have hsegs2 : db2.segments = db.segments := by
        rw [hdb2_def]
        by_cases h2 : tr.isEmpty
        · rw [if_pos h2]
          exact hsegs1
        · rw [if_neg h2]
          rw [(remove_leads_same_segments db1 sid tr).1]
          exact hsegs1
      have hleads2 : db2.leads = db.leads := by
        rw [hdb2_def]
        by_cases h2 : tr.isEmpty
        · rw [if_pos h2]
          exact hleads1
        · rw [if_neg h2]
          rw [(remove_leads_same_segments db1 sid tr).2]
          exact hleads1
      have heval2 : evaluate_segment db2 seg none = M := by
        rw [hM]
        exact (evaluate_segment_leads_eq hleads2 seg none)
      have hlookup2 : get_segment_by_id db2 sid = some seg := by
        rw [← get_segment_segments_eq hsegs2 sid] at hseg
        exact hseg
      have hcur_mem : ∀ x, x ∈ cur ↔ x ∈ activeLeadIds db sid := by
        intro x
        rw [hcurdef]
        exact List.mem_dedup
      have hta_mem : ∀ x, x ∈ ta ↔ (x ∈ M ∧ x ∉ cur) := by
        intro x
        rw [hta_def, List.mem_filter]
        simp
      have htr_mem : ∀ x, x ∈ tr ↔ (x ∈ cur ∧ x ∉ M) := by
        intro x
        rw [htr_def, List.mem_filter]
        simp
      have hdb1active : ∀ x,
          x ∈ activeLeadIds db1 sid ↔ x ∈ ta ∨ x ∈ activeLeadIds db sid := by
        intro x
        by_cases h1 : ta.isEmpty
        · have he : db1 = db := by
            rw [hdb1_def, if_pos h1]
          have hnil : ta = [] := List.isEmpty_iff.mp h1
          rw [he, hnil]
          simp
        · have he : db1 = (add_leads_to_segment db sid ta).1 := by
            rw [hdb1_def, if_neg h1]
          rw [he]
          exact add_active db sid ta x (by rw [hseg]; rfl)
      have hdb2active : ∀ x,
          x ∈ activeLeadIds db2 sid ↔ x ∈ activeLeadIds db1 sid ∧ x ∉ tr := by
        intro x
        by_cases h2 : tr.isEmpty
        · have he : db2 = db1 := by
            rw [hdb2_def, if_pos h2]
          have hnil : tr = [] := List.isEmpty_iff.mp h2
          rw [he, hnil]
          simp
        · have he : db2 = (remove_leads_from_segment db1 sid tr).1 := by
            rw [hdb2_def, if_neg h2]
          rw [he]
          exact remove_active db1 sid tr x
      have hactive2 : ∀ x,
          x ∈ activeLeadIds db2 sid ↔ x ∈ evaluate_segment db2 seg none := by
        intro x
        rw [heval2, hdb2active x, hdb1active x]
        constructor
        · rintro ⟨hl | hl, hr⟩
          · exact ((hta_mem x).mp hl).1
          · by_contra hnm
            exact hr ((htr_mem x).mpr ⟨(hcur_mem x).mpr hl, hnm⟩)
        · intro hm
          constructor
          · by_cases hc : x ∈ activeLeadIds db sid
            · exact Or.inr hc
            · exact Or.inl ((hta_mem x).mpr ⟨hm, fun hcx => hc ((hcur_mem x).mp hcx)⟩)
          · intro htrx
            exact ((htr_mem x).mp htrx).2 hm
      rw [hres]
      exact update_noop_of_no_diff db2 sid seg hlookup2 hactive2
    · have h1 : update_segment_memberships db sid = (db, 0) := by
        simp only [update_segment_memberships, hseg]
        simp [hdyn]
      rw [h1]
      exact h1

end LeadGen
